import Mathlib

/-!
Verification development for the EGL pbuffer offscreen OpenGL provider
(`modules/video_filter/egl_pbuffer.c`).

The development is a shallow embedding of the module's picture-context
reference counting (`picture_context_copy` / `picture_context_destroy`),
the free-slot scan and wait loop of `UpdateBuffer`, the production cycle
`Swap`, the initial state established by `Open`, and the
`MakeCurrent` / `ReleaseCurrent` protocol.  GPU calls are modelled as
inert events where a claim is about their ordering, and are dropped
where a claim only concerns the C-visible state.
-/

deriving instance DecidableEq for Except

/-- `BUFFER_COUNT` from the source: the fixed number of buffer slots. -/
def BUFFER_COUNT : Nat := 4

/-- `struct pbo_picture_context`: the per-slot frame context.
`buffer_mapping` is the host pointer returned by `MapBufferRange`
(`none` models `NULL`); `rc` is the reference count (a C `int`, so it can
in principle go negative).  The `lock`/`cond` back-references are carried
implicitly: every context points at the single pool mutex/cond pair. -/
structure PboPictureContext where
  buffer_mapping : Option Nat
  rc : Int
deriving DecidableEq

/-- Read slot `i` of a context list (out-of-range reads, which never occur
under the pool invariant, return an inert context). -/
def ctxAt (ctxs : List PboPictureContext) (i : Nat) : PboPictureContext :=
  ctxs.getD i { buffer_mapping := none, rc := 0 }

/-- The reference count of slot `i`. -/
def rcAt (ctxs : List PboPictureContext) (i : Nat) : Int :=
  (ctxAt ctxs i).rc

/-- State effect of `picture_context_copy` on its context: `rc++`
(performed under the pool lock in the source). -/
def picture_context_copy (c : PboPictureContext) : PboPictureContext :=
  { c with rc := c.rc + 1 }

/-- State effect of `picture_context_destroy` on its context: `rc--`
(performed under the pool lock, followed by `vlc_cond_signal`). -/
def picture_context_destroy (c : PboPictureContext) : PboPictureContext :=
  { c with rc := c.rc - 1 }

/-- A consumer-side operation on a frame context: `dup` is
`picture_context_copy`, `disp` is `picture_context_destroy`. -/
inductive RcOp
  | dup
  | disp
deriving DecidableEq

/-- Apply one consumer operation to a context. -/
def applyOp (c : PboPictureContext) : RcOp → PboPictureContext
  | RcOp.dup => picture_context_copy c
  | RcOp.disp => picture_context_destroy c

/-- Apply a sequence of consumer operations to a context. -/
def applyOps : PboPictureContext → List RcOp → PboPictureContext
  | c, [] => c
  | c, o :: rest => applyOps (applyOp c o) rest

/-- The caller protocol for a frame context: a `disp`
(`picture_context_destroy`) may only be issued while the count is
positive; disposing an unreferenced context is a protocol violation. -/
def ValidFrom : PboPictureContext → List RcOp → Prop
  | _, [] => True
  | c, RcOp.dup :: rest => ValidFrom (picture_context_copy c) rest
  | c, RcOp.disp :: rest => 0 < c.rc ∧ ValidFrom (picture_context_destroy c) rest

/-- One pass of the `for (index = 0; index < BUFFER_COUNT; ++index)` loop
in `UpdateBuffer`: visit the slots in index order; at each visited slot
first `assert(rc >= 0)` (`Except.error ()` models the assertion firing),
then stop at the first slot whose count is exactly `0` (`goto out_loop`).
`Except.ok none` means the loop fell through with no free slot found, in
which case the caller waits on the condition variable. -/
def UpdateBufferScan : List PboPictureContext → Except Unit (Option Nat)
  | [] => Except.ok none
  | c :: rest =>
    if c.rc < 0 then Except.error ()
    else if c.rc = 0 then Except.ok (some 0)
    else
      match UpdateBufferScan rest with
      | Except.error e => Except.error e
      | Except.ok none => Except.ok none
      | Except.ok (some k) => Except.ok (some (k + 1))

/-- The `do { for ... ; vlc_cond_wait } while (index == BUFFER_COUNT)`
loop of `UpdateBuffer`, driven by the pool snapshots the producer observes:
the head is the pool state at the first scan, each further element the
state after one wakeup of the condition variable.  `Except.ok none` means
every observed scan failed, i.e. the producer is still suspended. -/
def UpdateBufferWaitLoop : List (List PboPictureContext) → Except Unit (Option Nat)
  | [] => Except.ok none
  | ctxs :: rest =>
    match UpdateBufferScan ctxs with
    | Except.error e => Except.error e
    | Except.ok (some i) => Except.ok (some i)
    | Except.ok none => UpdateBufferWaitLoop rest

/-- `struct vlc_gl_pbuffer`, restricted to the fields the claims are
about: the current draw-target slot `current_flip`, the per-slot frame
contexts, and the configured output format's visible width/height. -/
structure VlcGlPbuffer where
  current_flip : Nat
  picture_contexts : List PboPictureContext
  fmt_width : Nat
  fmt_height : Nat
deriving DecidableEq

/-- `UpdateBuffer` as a single non-waiting attempt: run one scan pass over
the pool; on success set `sys->current_flip` to the found index (the
`BindDrawFramebuffer` call is a pure GPU effect).  `Except.ok none` means
no slot was free, so the producer would suspend on the condition
variable. -/
def UpdateBuffer (s : VlcGlPbuffer) : Except Unit (Option VlcGlPbuffer) :=
  match UpdateBufferScan s.picture_contexts with
  | Except.error e => Except.error e
  | Except.ok none => Except.ok none
  | Except.ok (some i) => Except.ok (some { s with current_flip := i })

/-- The picture built by `Swap` from `picture_NewFromResource`:
`pixels` is the mapped host pointer (`p[0].p_pixels`), `lines` is
`p[0].i_lines`, `pitch` is `p[0].i_pitch`, and `ctxIndex` is the slot
index of the `pbo_picture_context` attached as `output->context`. -/
structure Picture where
  pixels : Nat
  lines : Nat
  pitch : Nat
  ctxIndex : Nat
deriving DecidableEq

/-- Outcome of one `Swap` call.  `assertFail` models the
`assert(rc >= 0)` in the slot scan firing; `blocked` is the producer
suspended inside `UpdateBuffer` with the updated pool (no free slot);
`fail` is the `picture_NewFromResource == NULL` error path returning
`NULL`; `ok` is a produced frame. -/
inductive SwapResult
  | assertFail
  | blocked (s : VlcGlPbuffer)
  | fail (s : VlcGlPbuffer)
  | ok (s : VlcGlPbuffer) (out : Picture)
deriving DecidableEq

/-- The value stored into the current slot's context by `Swap` before the
buffer flip: `context->buffer_mapping = pixels; context->rc++;`. -/
def swapCtx (s : VlcGlPbuffer) (pixels : Nat) : PboPictureContext :=
  { buffer_mapping := some pixels
    rc := (ctxAt s.picture_contexts s.current_flip).rc + 1 }

/-- The pool after `Swap` has updated the current slot's context. -/
def swapContexts (s : VlcGlPbuffer) (pixels : Nat) : List PboPictureContext :=
  s.picture_contexts.set s.current_flip (swapCtx s pixels)

/-- The pool after the `Swap` error path has undone the count increment
on the slot that was current at entry (`context->rc--`; the mapping set
earlier in the cycle is not reverted by the source). -/
def swapFailContexts (s : VlcGlPbuffer) (pixels : Nat) : List PboPictureContext :=
  (swapContexts s pixels).set s.current_flip
    ({ swapCtx s pixels with rc := (swapCtx s pixels).rc - 1 })

/-- `Swap`: one production cycle.  `pixels` is the host pointer returned
by `MapBufferRange` this cycle; `allocOk` tells whether
`picture_NewFromResource` succeeds.  Steps, as in the source: store the
mapping and increment the current slot's count, run `UpdateBuffer` to
advance `current_flip` to a free slot (possibly suspending), then build
the output picture with `stride = width`, `i_pitch = stride * 4`,
`i_lines = height`; on allocation failure undo the count increment on the
slot that was current at entry (`context->rc--`) and return `NULL`. -/
def Swap (s : VlcGlPbuffer) (pixels : Nat) (allocOk : Bool) : SwapResult :=
  match UpdateBuffer { s with picture_contexts := swapContexts s pixels } with
  | Except.error _ => SwapResult.assertFail
  | Except.ok none => SwapResult.blocked { s with picture_contexts := swapContexts s pixels }
  | Except.ok (some s2) =>
    if allocOk then
      SwapResult.ok s2
        { pixels := pixels
          lines := s.fmt_height
          pitch := s.fmt_width * 4
          ctxIndex := s.current_flip }
    else
      SwapResult.fail { s2 with picture_contexts := swapFailContexts s pixels }

/-- The sys state established by a successful `Open` with the requested
`width`/`height`: every slot's context has `buffer_mapping = NULL` and
`rc = 0`, and `current_flip = BUFFER_COUNT - 1` is bound as the draw
target. -/
def OpenState (width height : Nat) : VlcGlPbuffer :=
  { current_flip := BUFFER_COUNT - 1
    picture_contexts := List.replicate BUFFER_COUNT { buffer_mapping := none, rc := 0 }
    fmt_width := width
    fmt_height := height }

/-- Drive repeated production cycles (each `Swap` succeeding at picture
allocation, with a fresh mapping pointer per cycle) and count how many
complete before one suspends in the free-slot scan; `none` if no cycle
blocked within `fuel` cycles (or a cycle failed some other way). -/
def cyclesBeforeBlock : Nat → VlcGlPbuffer → Nat → Option Nat
  | 0, _, _ => none
  | fuel + 1, s, px =>
    match Swap s px true with
    | SwapResult.ok s' _ => (cyclesBeforeBlock fuel s' (px + 1)).map (· + 1)
    | SwapResult.blocked _ => some 0
    | _ => none

/-- Drive repeated production cycles until one suspends in the free-slot
scan and return the pool state at the moment of suspension. -/
def runToBlock : Nat → VlcGlPbuffer → Nat → Option VlcGlPbuffer
  | 0, _, _ => none
  | fuel + 1, s, px =>
    match Swap s px true with
    | SwapResult.ok s' _ => runToBlock fuel s' (px + 1)
    | SwapResult.blocked s' => some s'
    | _ => none

/-- The state in which the producer suspends when frames are produced
from a fresh 64x64 pool without any consumer ever disposing one. -/
def blockedState64 : VlcGlPbuffer :=
  (runToBlock 5 (OpenState 64 64) 1).getD (OpenState 0 0)

/-- The graphics calls issued by the readback section of `Swap`. -/
inductive GlCall
  | bindBuffer
  | bindFramebuffer
  | unmapBuffer
  | readPixels
  | mapBufferRange
  | getIntegerv
deriving DecidableEq

/-- The ordered trace of graphics calls issued by `Swap` between entry
and the buffer flip, as a function of the current slot's
`buffer_mapping` state: bind the pixel-pack buffer and the framebuffer,
unmap the buffer only if it is still mapped from a prior cycle, then
issue `ReadPixels` into it and map it. -/
def swapReadbackCalls (mapping : Option Nat) : List GlCall :=
  [GlCall.bindBuffer, GlCall.bindFramebuffer] ++
    (match mapping with
     | some _ => [GlCall.unmapBuffer]
     | none => []) ++
    [GlCall.readPixels, GlCall.mapBufferRange, GlCall.getIntegerv]

/-- Synchronization-relevant events, used to record which statements of
the source run while the pool mutex is held. -/
inductive SyncEvent
  | lockMutex
  | unlockMutex
  | incRc
  | decRc
  | signalCond
  | waitCond
deriving DecidableEq

/-- Event trace of `picture_context_copy`:
`vlc_mutex_lock; rc++; vlc_mutex_unlock`. -/
def picture_context_copy_events : List SyncEvent :=
  [SyncEvent.lockMutex, SyncEvent.incRc, SyncEvent.unlockMutex]

/-- Event trace of `picture_context_destroy`:
`vlc_mutex_lock; rc--; vlc_cond_signal; vlc_mutex_unlock`. -/
def picture_context_destroy_events : List SyncEvent :=
  [SyncEvent.lockMutex, SyncEvent.decRc, SyncEvent.signalCond, SyncEvent.unlockMutex]

/-- Event trace of `UpdateBuffer` with `waits` passes through
`vlc_cond_wait`: the lock is taken, the scan (no rc mutation) runs with
possible waits, the lock is released. -/
def UpdateBuffer_events (waits : Nat) : List SyncEvent :=
  [SyncEvent.lockMutex] ++ List.replicate waits SyncEvent.waitCond ++ [SyncEvent.unlockMutex]

/-- Event trace of the reference-count-relevant part of `Swap`: the
`context->rc++` before the buffer flip runs with no lock held, then
`UpdateBuffer` locks and unlocks, and on the picture-allocation error
path `context->rc--` again runs with no lock held. -/
def swap_rc_events (allocOk : Bool) (waits : Nat) : List SyncEvent :=
  [SyncEvent.incRc] ++ UpdateBuffer_events waits ++
    (if allocOk then [] else [SyncEvent.decRc])

/-- Check that every `incRc`/`decRc` event of a trace occurs while the
mutex is held (`depth` is the number of unmatched lock events so far). -/
def mutationsUnderLock : List SyncEvent → Nat → Bool
  | [], _ => true
  | SyncEvent.lockMutex :: r, depth => mutationsUnderLock r (depth + 1)
  | SyncEvent.unlockMutex :: r, depth => mutationsUnderLock r (depth - 1)
  | SyncEvent.incRc :: r, depth => decide (0 < depth) && mutationsUnderLock r depth
  | SyncEvent.decRc :: r, depth => decide (0 < depth) && mutationsUnderLock r depth
  | SyncEvent.signalCond :: r, depth => mutationsUnderLock r depth
  | SyncEvent.waitCond :: r, depth => mutationsUnderLock r depth

/-- The `current` flag of `struct vlc_gl_pbuffer`, the only state of the
make-current protocol. -/
structure GlCtxState where
  current : Bool
deriving DecidableEq

/-- Outcome of `MakeCurrent` / `ReleaseCurrent`: `assertViolation` models
a failed `assert` (fatal), `eglError` the `VLC_EGENERIC` return when
`eglMakeCurrent` refuses, `success` the normal return. -/
inductive MCResult
  | assertViolation
  | eglError (s : GlCtxState)
  | success (s : GlCtxState)
deriving DecidableEq

/-- `MakeCurrent`: `assert(!sys->current)`, then try `eglMakeCurrent`
(success given by `eglOk`); on success set `current = true`. -/
def MakeCurrent (eglOk : Bool) (s : GlCtxState) : MCResult :=
  if s.current then MCResult.assertViolation
  else if eglOk then MCResult.success { current := true }
  else MCResult.eglError s

/-- `ReleaseCurrent`: `assert(sys->current)`, release the context and
set `current = false` (the `eglMakeCurrent` result is ignored). -/
def ReleaseCurrent (s : GlCtxState) : MCResult :=
  if s.current then MCResult.success { current := false }
  else MCResult.assertViolation

theorem ctxAt_cons_zero (c : PboPictureContext) (l : List PboPictureContext) :
    ctxAt (c :: l) 0 = c := rfl

theorem ctxAt_cons_succ (c : PboPictureContext) (l : List PboPictureContext) (j : Nat) :
    ctxAt (c :: l) (j + 1) = ctxAt l j := rfl

theorem rcAt_cons_zero (c : PboPictureContext) (l : List PboPictureContext) :
    rcAt (c :: l) 0 = c.rc := rfl

theorem rcAt_cons_succ (c : PboPictureContext) (l : List PboPictureContext) (j : Nat) :
    rcAt (c :: l) (j + 1) = rcAt l j := rfl

theorem ctxAt_set_self (l : List PboPictureContext) (i : Nat) (a : PboPictureContext)
    (h : i < l.length) : ctxAt (l.set i a) i = a := by
  induction l generalizing i with
  | nil => simp at h
  | cons c r ih =>
    cases i with
    | zero => rfl
    | succ j =>
      have : ctxAt ((c :: r).set (j + 1) a) (j + 1) = ctxAt (r.set j a) j := rfl
      rw [this]
      exact ih j (Nat.lt_of_succ_lt_succ h)

theorem ctxAt_set_ne (l : List PboPictureContext) (i j : Nat) (a : PboPictureContext)
    (h : i ≠ j) : ctxAt (l.set i a) j = ctxAt l j := by
  induction l generalizing i j with
  | nil => simp [List.set]
  | cons c r ih =>
    cases i with
    | zero =>
      cases j with
      | zero => exact absurd rfl h
      | succ k => rfl
    | succ m =>
      cases j with
      | zero => rfl
      | succ k =>
        have e : ctxAt ((c :: r).set (m + 1) a) (k + 1) = ctxAt (r.set m a) k := rfl
        rw [e, ctxAt_cons_succ]
        exact ih m k (fun hmk => h (by rw [hmk]))

theorem rcAt_set_self (l : List PboPictureContext) (i : Nat) (a : PboPictureContext)
    (h : i < l.length) : rcAt (l.set i a) i = a.rc := by
  rw [rcAt, ctxAt_set_self l i a h]

theorem rcAt_set_ne (l : List PboPictureContext) (i j : Nat) (a : PboPictureContext)
    (h : i ≠ j) : rcAt (l.set i a) j = rcAt l j := by
  rw [rcAt, ctxAt_set_ne l i j a h, rcAt]

/-- Characterization of a successful scan pass: on a pool of non-negative
counts, the scan returns index `i` exactly when `i` is in range, slot `i`
is free, and every slot before it is busy. -/
theorem UpdateBufferScan_eq_some_iff (ctxs : List PboPictureContext)
    (hnn : ∀ j, j < ctxs.length → 0 ≤ rcAt ctxs j) (i : Nat) :
    UpdateBufferScan ctxs = Except.ok (some i) ↔
      (i < ctxs.length ∧ rcAt ctxs i = 0 ∧ ∀ j, j < i → rcAt ctxs j ≠ 0) := by
  induction ctxs generalizing i with
  | nil =>
    simp [UpdateBufferScan]
  | cons c rest ih =>
    have h0 : 0 ≤ c.rc := by
      have := hnn 0 (Nat.succ_pos _)
      rwa [rcAt_cons_zero] at this
    have hrest : ∀ j, j < rest.length → 0 ≤ rcAt rest j := by
      intro j hj
      have := hnn (j + 1) (Nat.succ_lt_succ hj)
      rwa [rcAt_cons_succ] at this
    have hlt : ¬ c.rc < 0 := not_lt.mpr h0
    by_cases hc : c.rc = 0
    · rw [UpdateBufferScan, if_neg hlt, if_pos hc]
      cases i with
      | zero =>
        simp only [Except.ok.injEq, Option.some.injEq]
        constructor
        · intro _
          exact ⟨Nat.succ_pos _, by rw [rcAt_cons_zero]; exact hc, by omega⟩
        · intro _
          trivial
      | succ k =>
        simp only [Except.ok.injEq, Option.some.injEq]
        constructor
        · intro h; omega
        · rintro ⟨-, -, hbusy⟩
          have := hbusy 0 (Nat.succ_pos _)
          rw [rcAt_cons_zero] at this
          exact absurd hc this
    · rw [UpdateBufferScan, if_neg hlt, if_neg hc]
      cases i with
      | zero =>
        constructor
        · intro h
          cases hsr : UpdateBufferScan rest with
          | error e => rw [hsr] at h; exact absurd h (by simp)
          | ok o =>
            cases o with
            | none => rw [hsr] at h; exact absurd h (by simp)
            | some k => rw [hsr] at h; simp at h
        · rintro ⟨-, hrc, -⟩
          rw [rcAt_cons_zero] at hrc
          exact absurd hrc hc
      | succ k =>
        have key : (match UpdateBufferScan rest with
            | Except.error e => Except.error e
            | Except.ok none => Except.ok none
            | Except.ok (some m) => Except.ok (some (m + 1))) = Except.ok (some (k + 1)) ↔
            UpdateBufferScan rest = Except.ok (some k) := by
          cases hsr : UpdateBufferScan rest with
          | error e => simp
          | ok o => cases o with
            | none => simp
            | some m => simp
        rw [key, ih hrest k]
        constructor
        · rintro ⟨hk, hrc, hbusy⟩
          refine ⟨Nat.succ_lt_succ hk, by rwa [rcAt_cons_succ], ?_⟩
          intro j hj
          cases j with
          | zero => rw [rcAt_cons_zero]; exact hc
          | succ m =>
            rw [rcAt_cons_succ]
            exact hbusy m (Nat.lt_of_succ_lt_succ hj)
        · rintro ⟨hk, hrc, hbusy⟩
          refine ⟨Nat.lt_of_succ_lt_succ hk, by rwa [rcAt_cons_succ] at hrc, ?_⟩
          intro m hm
          have := hbusy (m + 1) (Nat.succ_lt_succ hm)
          rwa [rcAt_cons_succ] at this

/-- Characterization of a failed scan pass: on a pool of non-negative
counts, the scan falls through exactly when every slot is busy. -/
theorem UpdateBufferScan_eq_none_iff (ctxs : List PboPictureContext)
    (hnn : ∀ j, j < ctxs.length → 0 ≤ rcAt ctxs j) :
    UpdateBufferScan ctxs = Except.ok none ↔
      ∀ j, j < ctxs.length → rcAt ctxs j ≠ 0 := by
  induction ctxs with
  | nil => simp [UpdateBufferScan]
  | cons c rest ih =>
    have h0 : 0 ≤ c.rc := by
      have := hnn 0 (Nat.succ_pos _)
      rwa [rcAt_cons_zero] at this
    have hrest : ∀ j, j < rest.length → 0 ≤ rcAt rest j := by
      intro j hj
      have := hnn (j + 1) (Nat.succ_lt_succ hj)
      rwa [rcAt_cons_succ] at this
    have hlt : ¬ c.rc < 0 := not_lt.mpr h0
    by_cases hc : c.rc = 0
    · rw [UpdateBufferScan, if_neg hlt, if_pos hc]
      constructor
      · intro h; exact absurd h (by simp)
      · intro h
        have := h 0 (Nat.succ_pos _)
        rw [rcAt_cons_zero] at this
        exact absurd hc this
    · rw [UpdateBufferScan, if_neg hlt, if_neg hc]
      have key : (match UpdateBufferScan rest with
          | Except.error e => Except.error e
          | Except.ok none => Except.ok none
          | Except.ok (some m) => Except.ok (some (m + 1))) = Except.ok none ↔
          UpdateBufferScan rest = Except.ok none := by
        cases hsr : UpdateBufferScan rest with
        | error e => simp
        | ok o => cases o with
          | none => simp
          | some m => simp
      rw [key, ih hrest]
      constructor
      · intro h j hj
        cases j with
        | zero => rw [rcAt_cons_zero]; exact hc
        | succ m =>
          rw [rcAt_cons_succ]
          exact h m (Nat.lt_of_succ_lt_succ hj)
      · intro h j hj
        have := h (j + 1) (Nat.succ_lt_succ hj)
        rwa [rcAt_cons_succ] at this

/-- The reference-count invariant: starting from a non-negative count, a
protocol-respecting sequence of consumer operations keeps the count
non-negative after every prefix. -/
theorem applyOps_take_nonneg (ops : List RcOp) (c : PboPictureContext)
    (h0 : 0 ≤ c.rc) (hv : ValidFrom c ops) (n : Nat) :
    0 ≤ (applyOps c (ops.take n)).rc := by
  induction ops generalizing c n with
  | nil =>
    simpa [applyOps, List.take] using h0
  | cons o rest ih =>
    cases n with
    | zero => simpa [applyOps] using h0
    | succ m =>
      cases o with
      | dup =>
        have hv' : ValidFrom (picture_context_copy c) rest := hv
        have h0' : 0 ≤ (picture_context_copy c).rc := by
          simp only [picture_context_copy]
          omega
        simpa [applyOps, applyOp] using ih (picture_context_copy c) h0' hv' m
      | disp =>
        obtain ⟨hpos, hv'⟩ := hv
        have h0' : 0 ≤ (picture_context_destroy c).rc := by
          simp only [picture_context_destroy]
          omega
        simpa [applyOps, applyOp] using ih (picture_context_destroy c) h0' hv' m

/-- Inversion of a successful `Swap`: the scan over the updated pool
found the new flip index, the final state is the updated pool with the
new flip, and the output picture is built from the mapped pointer with
pitch `width * 4`, `height` lines, and the entry slot's context. -/
theorem Swap_ok_inversion (s : VlcGlPbuffer) (px : Nat) (s' : VlcGlPbuffer) (out : Picture)
    (h : Swap s px true = SwapResult.ok s' out) :
    UpdateBufferScan (swapContexts s px) = Except.ok (some s'.current_flip) ∧
    s' = { s with picture_contexts := swapContexts s px, current_flip := s'.current_flip } ∧
    out = { pixels := px, lines := s.fmt_height, pitch := s.fmt_width * 4,
            ctxIndex := s.current_flip } := by
  rw [Swap, UpdateBuffer] at h
  cases hs : UpdateBufferScan (swapContexts s px) with
  | error e => rw [hs] at h; exact absurd h (by simp)
  | ok o =>
    cases o with
    | none => rw [hs] at h; exact absurd h (by simp)
    | some i =>
      rw [hs] at h
      injection h with h1 h2
      subst h1
      subst h2
      exact ⟨rfl, rfl, rfl⟩

/-- Inversion of a failed `Swap`: the scan over the updated pool found a
free index, and the final state carries the error-path pool with the
entry slot's increment undone. -/
theorem Swap_fail_inversion (s : VlcGlPbuffer) (px : Nat) (s' : VlcGlPbuffer)
    (h : Swap s px false = SwapResult.fail s') :
    UpdateBufferScan (swapContexts s px) = Except.ok (some s'.current_flip) ∧
    s' = { s with picture_contexts := swapFailContexts s px,
                  current_flip := s'.current_flip } := by
  rw [Swap, UpdateBuffer] at h
  cases hs : UpdateBufferScan (swapContexts s px) with
  | error e => rw [hs] at h; exact absurd h (by simp)
  | ok o =>
    cases o with
    | none => rw [hs] at h; exact absurd h (by simp)
    | some i =>
      rw [hs] at h
      injection h with h1
      subst h1
      exact ⟨rfl, rfl⟩

/-- C1: for every protocol-respecting sequence of duplicate/dispose
operations starting from a fresh context, the reference count stays
non-negative after every prefix; under the scan's asserted invariant a
slot whose predecessors are busy is returned by the free-slot scan iff
its count is exactly 0; and disposing a context whose count is already 0
drives the count negative, firing the `assert(rc >= 0)` of the next scan
that visits it (a protocol violation). -/
theorem C1_refcount_protocol :
    (∀ (c : PboPictureContext) (ops : List RcOp), 0 ≤ c.rc → ValidFrom c ops →
        ∀ n, 0 ≤ (applyOps c (ops.take n)).rc) ∧
    (∀ (ctxs : List PboPictureContext) (i : Nat), i < ctxs.length →
        (∀ j, j < ctxs.length → 0 ≤ rcAt ctxs j) →
        (∀ j, j < i → rcAt ctxs j ≠ 0) →
        (UpdateBufferScan ctxs = Except.ok (some i) ↔ rcAt ctxs i = 0)) ∧
    (∀ c : PboPictureContext, c.rc = 0 →
        UpdateBufferScan [picture_context_destroy c] = Except.error ()) := by
  refine ⟨?_, ?_, ?_⟩
  · intro c ops h0 hv n
    exact applyOps_take_nonneg ops c h0 hv n
  · intro ctxs i hi hnn hbusy
    rw [UpdateBufferScan_eq_some_iff ctxs hnn i]
    constructor
    · rintro ⟨-, hrc, -⟩
      exact hrc
    · intro hrc
      exact ⟨hi, hrc, hbusy⟩
  · intro c hc
    rw [UpdateBufferScan]
    rw [if_pos]
    simp only [picture_context_destroy, hc]
    omega

/-- Witness for C1 at concrete inputs: one duplicate keeps the count
non-negative; a singleton free slot is returned by the scan; disposing a
zero-count context trips the scan's assertion. -/
theorem C1_refcount_protocol_witness :
    (0 ≤ (applyOps { buffer_mapping := none, rc := 0 } ([RcOp.dup].take 1)).rc) ∧
    (UpdateBufferScan [{ buffer_mapping := none, rc := 0 }] = Except.ok (some 0) ↔
      rcAt [{ buffer_mapping := none, rc := 0 }] 0 = 0) ∧
    UpdateBufferScan [picture_context_destroy { buffer_mapping := none, rc := 0 }] =
      Except.error () :=
  ⟨C1_refcount_protocol.1 { buffer_mapping := none, rc := 0 } [RcOp.dup]
      (by decide) trivial 1,
   C1_refcount_protocol.2.1 [{ buffer_mapping := none, rc := 0 }] 0
      (by decide) (by decide) (by omega),
   C1_refcount_protocol.2.2 { buffer_mapping := none, rc := 0 } rfl⟩

/-- C2: on a pool satisfying the asserted invariant (all counts
non-negative) the free-slot scan of `UpdateBuffer` is deterministic and
low-index-biased: it returns exactly the lowest index whose count is 0,
and falls through exactly when no slot has count 0; the wait loop then
suspends on the condition variable and, after each wakeup, reruns the
same scan (which starts again from index 0) on the newly observed pool
state. -/
theorem C2_lowest_free_slot :
    (∀ (ctxs : List PboPictureContext), (∀ j, j < ctxs.length → 0 ≤ rcAt ctxs j) →
       (∀ i, UpdateBufferScan ctxs = Except.ok (some i) ↔
          (i < ctxs.length ∧ rcAt ctxs i = 0 ∧ ∀ j, j < i → rcAt ctxs j ≠ 0)) ∧
       (UpdateBufferScan ctxs = Except.ok none ↔
          ∀ j, j < ctxs.length → rcAt ctxs j ≠ 0)) ∧
    (∀ ctxs rest, UpdateBufferScan ctxs = Except.ok none →
        UpdateBufferWaitLoop (ctxs :: rest) = UpdateBufferWaitLoop rest) ∧
    (∀ ctxs rest i, UpdateBufferScan ctxs = Except.ok (some i) →
        UpdateBufferWaitLoop (ctxs :: rest) = Except.ok (some i)) := by
  refine ⟨?_, ?_, ?_⟩
  · intro ctxs hnn
    exact ⟨fun i => UpdateBufferScan_eq_some_iff ctxs hnn i,
           UpdateBufferScan_eq_none_iff ctxs hnn⟩
  · intro ctxs rest h
    rw [UpdateBufferWaitLoop, h]
  · intro ctxs rest i h
    rw [UpdateBufferWaitLoop, h]

/-- Witness for C2 at a concrete pool: with slot 0 busy and slot 1 free,
the scan returns index 1, and the wait loop returns it without
waiting. -/
theorem C2_lowest_free_slot_witness :
    UpdateBufferScan
        [{ buffer_mapping := none, rc := 2 }, { buffer_mapping := none, rc := 0 }] =
      Except.ok (some 1) ∧
    UpdateBufferWaitLoop
        [[{ buffer_mapping := none, rc := 2 }, { buffer_mapping := none, rc := 0 }]] =
      Except.ok (some 1) := by
  have h1 : UpdateBufferScan
      [{ buffer_mapping := none, rc := 2 }, { buffer_mapping := none, rc := 0 }] =
      Except.ok (some 1) :=
    ((C2_lowest_free_slot.1 _ (by decide)).1 1).mpr (by refine ⟨by decide, by decide, ?_⟩; decide)
  exact ⟨h1, C2_lowest_free_slot.2.2 _ [] 1 h1⟩

/-- C3 counterexample: with the 4-slot pool of a fresh 64x64 `Open` and a
producer that never disposes a frame, exactly 3 production cycles
complete and the producer suspends in the free-slot scan of the 4th
cycle — not the 5th as the claim states — and in the suspended state the
scan finds no free slot. -/
theorem C3_counterexample :
    cyclesBeforeBlock 5 (OpenState 64 64) 1 = some 3 ∧
    UpdateBufferScan blockedState64.picture_contexts = Except.ok none := by
  constructor
  · decide
  · decide

/-- C3 amended: producing frames from a fresh pool of `BUFFER_COUNT = 4`
slots without disposing any of them lets the first `N - 1 = 3` cycles
complete without blocking; the producer suspends in the allocation scan
of the `N`-th cycle (the 4th), where no slot has count 0 because one
slot is held by each of the 3 outstanding frames and the 4th by the
cycle's own in-progress increment; disposing the first produced frame
(the context of slot `BUFFER_COUNT - 1 = 3`) makes the next scan succeed
and return that slot. -/
theorem C3_blocks_on_fourth_cycle :
    cyclesBeforeBlock 5 (OpenState 64 64) 1 = some 3 ∧
    rcAt blockedState64.picture_contexts 0 = 1 ∧
    rcAt blockedState64.picture_contexts 1 = 1 ∧
    rcAt blockedState64.picture_contexts 2 = 1 ∧
    rcAt blockedState64.picture_contexts 3 = 1 ∧
    UpdateBufferScan
        (blockedState64.picture_contexts.set 3
          (picture_context_destroy (ctxAt blockedState64.picture_contexts 3))) =
      Except.ok (some 3) := by
  refine ⟨by decide, by decide, by decide, by decide, by decide, by decide⟩

/-- C4: when `picture_NewFromResource` fails, `Swap` decrements the
just-incremented count of the slot that was current at entry back to 0
before returning `NULL`, so the slot again satisfies the scan's
reallocation condition (`rc == 0`). -/
theorem C4_error_path_restores_slot (s : VlcGlPbuffer) (px : Nat) (s' : VlcGlPbuffer)
    (hflip : s.current_flip < s.picture_contexts.length)
    (h0 : rcAt s.picture_contexts s.current_flip = 0)
    (hfail : Swap s px false = SwapResult.fail s') :
    rcAt s'.picture_contexts s.current_flip = 0 := by
  obtain ⟨-, hs'⟩ := Swap_fail_inversion s px s' hfail
  rw [hs']
  show rcAt (swapFailContexts s px) s.current_flip = 0
  rw [swapFailContexts, rcAt_set_self]
  · show (swapCtx s px).rc - 1 = 0
    simp only [swapCtx, rcAt] at h0 ⊢
    omega
  · rw [swapContexts, List.length_set]
    exact hflip

/-- Witness for C4: a 2-slot pool with both slots free; the failed cycle
on slot 0 leaves slot 0 with count 0. -/
theorem C4_error_path_restores_slot_witness :
    rcAt ({ current_flip := 1,
            picture_contexts :=
              [{ buffer_mapping := some 9, rc := 0 }, { buffer_mapping := none, rc := 0 }],
            fmt_width := 64, fmt_height := 64 } : VlcGlPbuffer).picture_contexts 0 = 0 :=
  C4_error_path_restores_slot
    { current_flip := 0,
      picture_contexts :=
        [{ buffer_mapping := none, rc := 0 }, { buffer_mapping := none, rc := 0 }],
      fmt_width := 64, fmt_height := 64 }
    9 _ (by decide) (by decide) (by decide)

/-- C5 counterexample: the reference-count increment performed by `Swap`
before the buffer flip happens with the pool mutex not held, so the
claim that every count mutation runs under the mutex fails on the
successful-production trace (and likewise on the error-path trace, whose
decrement is also lockless). -/
theorem C5_counterexample :
    mutationsUnderLock (swap_rc_events true 0) 0 = false ∧
    mutationsUnderLock (swap_rc_events false 0) 0 = false := by
  constructor
  · decide
  · decide

/-- C5 amended: the consumer-side operations `picture_context_copy` and
`picture_context_destroy` mutate the count while holding the pool mutex,
but the producer-side increment in `Swap` and its error-path decrement
run without the mutex (only the slot scan inside `UpdateBuffer` takes
it), however many waits the scan performs. -/
theorem C5_consumer_mutations_locked :
    mutationsUnderLock picture_context_copy_events 0 = true ∧
    mutationsUnderLock picture_context_destroy_events 0 = true ∧
    (∀ waits, mutationsUnderLock (swap_rc_events true waits) 0 = false) ∧
    (∀ waits, mutationsUnderLock (swap_rc_events false waits) 0 = false) := by
  refine ⟨by decide, by decide, ?_, ?_⟩
  · intro waits
    rw [swap_rc_events]
    simp [mutationsUnderLock]
  · intro waits
    rw [swap_rc_events]
    simp [mutationsUnderLock]

/-- C6: every successfully produced picture is built from the host
pointer mapped this cycle, with `i_pitch = width * 4` (stride equal to
the configured output width in the fixed 4-byte RGBA format, no row
padding), `i_lines` equal to the configured output height, and carries
the frame context of the slot whose transfer buffer was mapped in this
cycle (the slot current at entry). -/
theorem C6_output_frame_shape (s : VlcGlPbuffer) (px : Nat) (s' : VlcGlPbuffer) (out : Picture)
    (hflip : s.current_flip < s.picture_contexts.length)
    (h : Swap s px true = SwapResult.ok s' out) :
    out.pixels = px ∧ out.pitch = s.fmt_width * 4 ∧ out.lines = s.fmt_height ∧
    out.ctxIndex = s.current_flip ∧
    (ctxAt s'.picture_contexts out.ctxIndex).buffer_mapping = some px := by
  obtain ⟨-, hs', hout⟩ := Swap_ok_inversion s px s' out h
  have hp : s'.picture_contexts = swapContexts s px := by rw [hs']
  subst hout
  refine ⟨rfl, rfl, rfl, rfl, ?_⟩
  show (ctxAt s'.picture_contexts s.current_flip).buffer_mapping = some px
  rw [hp, swapContexts, ctxAt_set_self _ _ _ hflip]
  rfl

/-- Witness for C6: a 2-slot pool, slot 0 current; the produced frame has
pitch `64 * 4`, 64 lines, and slot 0's context, now mapped at pointer
5. -/
theorem C6_output_frame_shape_witness :
    ({ pixels := 5, lines := 64, pitch := 256, ctxIndex := 0 } : Picture).pixels = 5 ∧
    ({ pixels := 5, lines := 64, pitch := 256, ctxIndex := 0 } : Picture).pitch = 64 * 4 ∧
    ({ pixels := 5, lines := 64, pitch := 256, ctxIndex := 0 } : Picture).lines = 64 ∧
    ({ pixels := 5, lines := 64, pitch := 256, ctxIndex := 0 } : Picture).ctxIndex = 0 ∧
    (ctxAt ({ current_flip := 1,
              picture_contexts :=
                [{ buffer_mapping := some 5, rc := 1 }, { buffer_mapping := none, rc := 0 }],
              fmt_width := 64, fmt_height := 64 } : VlcGlPbuffer).picture_contexts
        ({ pixels := 5, lines := 64, pitch := 256, ctxIndex := 0 } : Picture).ctxIndex
      ).buffer_mapping = some 5 :=
  C6_output_frame_shape
    { current_flip := 0,
      picture_contexts :=
        [{ buffer_mapping := none, rc := 0 }, { buffer_mapping := none, rc := 0 }],
      fmt_width := 64, fmt_height := 64 }
    5 _ _ (by decide) (by decide)

/-- C7: in the readback section of `Swap`, if the current slot's transfer
buffer is still mapped from a prior cycle the trace contains an
`UnmapBuffer` call and it precedes the `ReadPixels` call; if the buffer
is not mapped, no `UnmapBuffer` call is issued. -/
theorem C7_unmap_before_read (m : Option Nat) :
    (m ≠ none →
        GlCall.unmapBuffer ∈ swapReadbackCalls m ∧
        (swapReadbackCalls m).indexOf GlCall.unmapBuffer <
          (swapReadbackCalls m).indexOf GlCall.readPixels) ∧
    (m = none → GlCall.unmapBuffer ∉ swapReadbackCalls m) := by
  cases m with
  | none =>
    refine ⟨fun hne => absurd rfl hne, fun _ => ?_⟩
    decide
  | some p =>
    refine ⟨fun _ => ⟨?_, ?_⟩, fun he => by simp at he⟩
    · show GlCall.unmapBuffer ∈ swapReadbackCalls (some p)
      simp [swapReadbackCalls]
    · have hl : swapReadbackCalls (some p) =
          [GlCall.bindBuffer, GlCall.bindFramebuffer, GlCall.unmapBuffer,
           GlCall.readPixels, GlCall.mapBufferRange, GlCall.getIntegerv] := rfl
      rw [hl]
      decide

/-- Witness for C7: with a mapping outstanding the unmap precedes the
read; with no mapping no unmap is issued. -/
theorem C7_unmap_before_read_witness :
    (GlCall.unmapBuffer ∈ swapReadbackCalls (some 7) ∧
      (swapReadbackCalls (some 7)).indexOf GlCall.unmapBuffer <
        (swapReadbackCalls (some 7)).indexOf GlCall.readPixels) ∧
    GlCall.unmapBuffer ∉ swapReadbackCalls none :=
  ⟨(C7_unmap_before_read (some 7)).1 (by simp),
   (C7_unmap_before_read none).2 rfl⟩

/-- C8: `MakeCurrent` on an already-current context and `ReleaseCurrent`
on a non-current context both hit a failed assertion (fatal protocol
violation, not a recoverable error); in particular a second
`MakeCurrent` right after a successful one is an assertion violation;
and a properly paired make/release sequence succeeds. -/
theorem C8_make_release_protocol :
    (∀ (b : Bool) (s : GlCtxState), s.current = true →
        MakeCurrent b s = MCResult.assertViolation) ∧
    (∀ s : GlCtxState, s.current = false →
        ReleaseCurrent s = MCResult.assertViolation) ∧
    (∀ (b b' : Bool) (s s' : GlCtxState), MakeCurrent b s = MCResult.success s' →
        MakeCurrent b' s' = MCResult.assertViolation) ∧
    (∀ s : GlCtxState, s.current = false →
        MakeCurrent true s = MCResult.success { current := true } ∧
        ReleaseCurrent { current := true } = MCResult.success { current := false }) := by
  refine ⟨?_, ?_, ?_, ?_⟩
  · intro b s hc
    rw [MakeCurrent, if_pos hc]
  · intro s hc
    rw [ReleaseCurrent, if_neg]
    simp [hc]
  · intro b b' s s' h
    rw [MakeCurrent] at h
    by_cases hc : s.current = true
    · rw [if_pos hc] at h
      exact absurd h (by simp)
    · rw [if_neg hc] at h
      cases b with
      | false => exact absurd h (by simp [MCResult.eglError])
      | true =>
        rw [if_pos rfl] at h
        injection h with h1
        subst h1
        rfl
  · intro s hc
    constructor
    · rw [MakeCurrent, if_neg (by simp [hc]), if_pos rfl]
    · rfl

/-- Witness for C8 at concrete states: double make-current is a
violation, release of a non-current context is a violation, a make
following a successful make is a violation, and a correct pair
succeeds. -/
theorem C8_make_release_protocol_witness :
    MakeCurrent true { current := true } = MCResult.assertViolation ∧
    ReleaseCurrent { current := false } = MCResult.assertViolation ∧
    MakeCurrent false { current := true } = MCResult.assertViolation ∧
    (MakeCurrent true { current := false } = MCResult.success { current := true } ∧
      ReleaseCurrent { current := true } = MCResult.success { current := false }) :=
  ⟨C8_make_release_protocol.1 true { current := true } rfl,
   C8_make_release_protocol.2.1 { current := false } rfl,
   C8_make_release_protocol.2.2.1 true false { current := false } { current := true } rfl,
   C8_make_release_protocol.2.2.2 { current := false } rfl⟩

/-- C9: after a successful `Open`, every one of the `BUFFER_COUNT = 4`
slots has reference count 0 and a `NULL` host mapping, the bound draw
target is slot `BUFFER_COUNT - 1 = 3` (not slot 0), and the first
production cycle therefore emits a frame carrying slot 3's context. -/
theorem C9_open_initial_state (w h px : Nat) :
    (∀ i, i < BUFFER_COUNT →
        rcAt (OpenState w h).picture_contexts i = 0 ∧
        (ctxAt (OpenState w h).picture_contexts i).buffer_mapping = none) ∧
    (OpenState w h).current_flip = BUFFER_COUNT - 1 ∧
    (OpenState w h).current_flip ≠ 0 ∧
    (∃ s' out, Swap (OpenState w h) px true = SwapResult.ok s' out ∧
        out.ctxIndex = BUFFER_COUNT - 1) := by
  refine ⟨?_, rfl, ?_, ⟨_, _, rfl, rfl⟩⟩
  · intro i hi
    have hb : i < 4 := hi
    interval_cases i <;> exact ⟨rfl, rfl⟩
  · show (3 : Nat) ≠ 0
    decide

/-- Witness for C9 at width 64, height 64, first mapping pointer 1:
slot 0 starts free and unmapped, and the draw target starts at slot 3. -/
theorem C9_open_initial_state_witness :
    (rcAt (OpenState 64 64).picture_contexts 0 = 0 ∧
      (ctxAt (OpenState 64 64).picture_contexts 0).buffer_mapping = none) ∧
    (OpenState 64 64).current_flip = BUFFER_COUNT - 1 :=
  ⟨(C9_open_initial_state 64 64 1).1 0 (by decide),
   (C9_open_initial_state 64 64 1).2.1⟩

/-- C10: a successful production cycle leaves every slot other than the
one current at entry untouched (context equality, hence both count and
mapping), increments the entry slot's count by one (from 0 to 1 when the
pool invariant holds at entry), stores the new mapping in the entry
slot, and changes nothing else of the format state. -/
theorem C10_swap_frame_effect (s : VlcGlPbuffer) (px : Nat) (s' : VlcGlPbuffer) (out : Picture)
    (hflip : s.current_flip < s.picture_contexts.length)
    (h : Swap s px true = SwapResult.ok s' out) :
    (∀ j, j ≠ s.current_flip → ctxAt s'.picture_contexts j = ctxAt s.picture_contexts j) ∧
    rcAt s'.picture_contexts s.current_flip = rcAt s.picture_contexts s.current_flip + 1 ∧
    (rcAt s.picture_contexts s.current_flip = 0 →
        rcAt s'.picture_contexts s.current_flip = 1) ∧
    (ctxAt s'.picture_contexts s.current_flip).buffer_mapping = some px ∧
    s'.fmt_width = s.fmt_width ∧ s'.fmt_height = s.fmt_height := by
  obtain ⟨-, hs', -⟩ := Swap_ok_inversion s px s' out h
  have hp : s'.picture_contexts = swapContexts s px := by rw [hs']
  have hw : s'.fmt_width = s.fmt_width := by rw [hs']
  have hh : s'.fmt_height = s.fmt_height := by rw [hs']
  refine ⟨?_, ?_, ?_, ?_, hw, hh⟩
  · intro j hj
    rw [hp, swapContexts, ctxAt_set_ne _ _ _ _ (fun e => hj e.symm)]
  · rw [hp, swapContexts, rcAt_set_self _ _ _ hflip]
    simp [swapCtx, rcAt]
  · intro h0
    rw [hp, swapContexts, rcAt_set_self _ _ _ hflip]
    simp only [rcAt] at h0
    simp [swapCtx, h0]
  · rw [hp, swapContexts, ctxAt_set_self _ _ _ hflip]
    rfl

/-- Witness for C10: a 2-slot pool, slot 0 current; the successful cycle
leaves slot 1's context unchanged. -/
theorem C10_swap_frame_effect_witness :
    ctxAt ({ current_flip := 1,
             picture_contexts :=
               [{ buffer_mapping := some 8, rc := 1 }, { buffer_mapping := none, rc := 0 }],
             fmt_width := 32, fmt_height := 16 } : VlcGlPbuffer).picture_contexts 1 =
      ctxAt ({ current_flip := 0,
               picture_contexts :=
                 [{ buffer_mapping := none, rc := 0 }, { buffer_mapping := none, rc := 0 }],
               fmt_width := 32, fmt_height := 16 } : VlcGlPbuffer).picture_contexts 1 :=
  (C10_swap_frame_effect
    { current_flip := 0,
      picture_contexts :=
        [{ buffer_mapping := none, rc := 0 }, { buffer_mapping := none, rc := 0 }],
      fmt_width := 32, fmt_height := 16 }
    8
    { current_flip := 1,
      picture_contexts :=
        [{ buffer_mapping := some 8, rc := 1 }, { buffer_mapping := none, rc := 0 }],
      fmt_width := 32, fmt_height := 16 }
    { pixels := 8, lines := 16, pitch := 128, ctxIndex := 0 }
    (by decide) (by decide)).1 1 (by decide)
